import Mathlib

/-!
Verification development for the SZ-EWS (Silence Zone Early Warning System)
pipeline.

The embedding covers:
* `src/notebooks/szi_step3_timeseries.py` — series merge (outer join with
  zero-fill), rolling baseline `baseline_total_ma6` (window 6, min 3
  observations), and the suppression ratio with its inf/NaN normalization;
* `src/notebooks/szi_step4_silence_detection.py` — threshold flags,
  `compute_consecutive_runs`, silence state, suppression depth, duration,
  SZI, alert flag, recommendation;
* `src/app.py` — the `priority_engine` score.

Numeric columns are modelled with `ℚ`; the pandas float values NaN / inf /
-inf that appear transiently in the suppression-ratio computation are
modelled explicitly with the `PVal` type, so the normalization step of the
source (`replace([inf, -inf], 0).fillna(0)`) is a total function on `PVal`.
A region's time series is its `total_activity` values in ascending month
order, as produced by `sort_values(["region_id", "yyyymm_dt"])` followed by
`groupby("region_id")`.
-/

namespace SZEWS

/-- A pandas scalar as it can appear in the raw suppression-ratio column:
a finite value, NaN, or a signed infinity. -/
inductive PVal where
  | nan : PVal
  | posInf : PVal
  | negInf : PVal
  | fin (q : ℚ) : PVal
deriving DecidableEq

/-- Raw ratio `total_activity / baseline_total_ma6` with pandas semantics
(step 3, line 147): missing baseline gives NaN; a zero baseline gives
+inf / -inf / NaN according to the sign of the numerator;
otherwise the exact quotient. -/
def ratio_raw (total : ℚ) (baseline : Option ℚ) : PVal :=
  match baseline with
  | none => PVal.nan
  | some b =>
      if b = 0 then
        if 0 < total then PVal.posInf
        else if total < 0 then PVal.negInf
        else PVal.nan
      else PVal.fin (total / b)

/-- Normalization `replace([float("inf"), -float("inf")], 0).fillna(0)` (step 3, line 148). -/
def replace_inf_nan : PVal → ℚ
  | PVal.fin q => q
  | _ => 0

/-- The `suppression_ratio` column: raw ratio, then normalization
(step 3, lines 146–148). -/
def suppression_ratio (total : ℚ) (baseline : Option ℚ) : ℚ :=
  replace_inf_nan (ratio_raw total baseline)

/-- The trailing window of up to 6 entries of `xs` ending at index `i`
(the window `rolling(6)` looks at for row `i`). -/
def window6 (xs : List ℚ) (i : ℕ) : List ℚ :=
  (xs.take (i + 1)).drop (i + 1 - 6)

/-- Rolling mean `rolling(6, min_periods=3).mean()` at row `i` of a region's series
(step 3, lines 142–144).  `total_activity` is never missing (it is built
from `fillna(0)` columns), so the number of observations in the window is
the window's length. -/
def baseline_total_ma6 (xs : List ℚ) (i : ℕ) : Option ℚ :=
  if 3 ≤ (window6 xs i).length then
    some ((window6 xs i).sum / ((window6 xs i).length : ℚ))
  else none

/-- The `suppression_ratio` value of row `i` of a region's series. -/
def ratio_at (xs : List ℚ) (i : ℕ) : ℚ :=
  suppression_ratio (xs.getD i 0) (baseline_total_ma6 xs i)

/-- The `suppression_ratio` column of one region, in month order. -/
def ratio_list (xs : List ℚ) : List ℚ :=
  (List.range xs.length).map (ratio_at xs)

/-- Column `flag_moderate`: `suppression_ratio < 0.60` (step 4, line 38). -/
def flag_moderate_of (r : ℚ) : Bool := decide (r < 60 / 100)

/-- Column `flag_severe`: `suppression_ratio < 0.40` (step 4, line 39). -/
def flag_severe_of (r : ℚ) : Bool := decide (r < 40 / 100)

/-- The loop body of `compute_consecutive_runs`, carrying the running
`count` (step 4, lines 15–23). -/
def runs_from (count : ℕ) : List Bool → List ℕ
  | [] => []
  | v :: vs =>
      let c := if v then count + 1 else 0
      c :: runs_from c vs

/-- Function `compute_consecutive_runs` (step 4, lines 10–23): `count` starts at 0,
increments on a true flag and resets to 0 on a false one, and the running
value is emitted at every position. -/
def compute_consecutive_runs (flag_series : List Bool) : List ℕ :=
  runs_from 0 flag_series

/-- The three values of the `silence_state` column. -/
inductive SilenceState where
  | Normal : SilenceState
  | Moderate : SilenceState
  | Severe : SilenceState
deriving DecidableEq

/-- Column `silence_state` (step 4, lines 51–53): the column starts as `"Normal"`,
rows with `moderate_run >= 2` are overwritten with `"Moderate"`, then rows
with `severe_run >= 3` are overwritten with `"Severe"`; so the final value
is Severe when `severe_run >= 3`, else Moderate when `moderate_run >= 2`,
else Normal. -/
def silence_state_of (moderate_run severe_run : ℕ) : SilenceState :=
  if 3 ≤ severe_run then SilenceState.Severe
  else if 2 ≤ moderate_run then SilenceState.Moderate
  else SilenceState.Normal

/-- Column `suppression_depth_pct` (step 4, lines 57–58): `(1 - ratio) * 100`
clipped below at 0. -/
def depth_pct_of (r : ℚ) : ℚ := max ((1 - r) * 100) 0

/-- Column `silence_duration_months` (step 4, lines 62–64): 0, overwritten with
`moderate_run` on Moderate rows and `severe_run` on Severe rows. -/
def duration_of (st : SilenceState) (moderate_run severe_run : ℕ) : ℕ :=
  match st with
  | SilenceState.Moderate => moderate_run
  | SilenceState.Severe => severe_run
  | SilenceState.Normal => 0

/-- Column `SZI` (step 4, line 70): `suppression_ratio` clipped to `[0, 1]`. -/
def SZI_of (r : ℚ) : ℚ := min (max r 0) 1

/-- Column `alert_flag` (step 4, lines 78–81): the column starts at 0 and is set
to 1 on rows with `severe_run == 3`, rows with `moderate_run == 2`, and
rows with `silence_state == "Severe"` (three overwrites of the same
value, so order is immaterial). -/
def alert_of (moderate_run severe_run : ℕ) (st : SilenceState) : ℕ :=
  if severe_run = 3 ∨ moderate_run = 2 ∨ st = SilenceState.Severe then 1 else 0

/-- Function `recommend` (step 4, lines 84–92). -/
def recommend (st : SilenceState) (depth : ℚ) : String :=
  match st with
  | SilenceState.Severe =>
      if 70 < depth then "Deploy Mobile Van + Temporary Camp + Infra Audit"
      else "Deploy Mobile Van + Temporary Camp"
  | SilenceState.Moderate => "Outreach + Temporary Camp + Monitoring"
  | SilenceState.Normal => "Normal Monitoring"

/-- One row of the final table (the columns derived in steps 3–4 that the
claims are about). -/
structure SilenceRecord where
  total_activity : ℚ
  baseline : Option ℚ
  suppression_ratio : ℚ
  flag_moderate : Bool
  flag_severe : Bool
  moderate_run : ℕ
  severe_run : ℕ
  silence_state : SilenceState
  suppression_depth_pct : ℚ
  silence_duration_months : ℕ
  SZI : ℚ
  alert_flag : ℕ
  recommendation : String
deriving DecidableEq

/-- The `flag_moderate` column of one region. -/
def moderate_flags (xs : List ℚ) : List Bool :=
  (ratio_list xs).map flag_moderate_of

/-- The `flag_severe` column of one region. -/
def severe_flags (xs : List ℚ) : List Bool :=
  (ratio_list xs).map flag_severe_of

/-- The `moderate_run` column of one region
(step 4, line 44: `groupby("region_id")["flag_moderate"].transform(compute_consecutive_runs)`). -/
def moderate_runs (xs : List ℚ) : List ℕ :=
  compute_consecutive_runs (moderate_flags xs)

/-- The `severe_run` column of one region (step 4, line 45). -/
def severe_runs (xs : List ℚ) : List ℕ :=
  compute_consecutive_runs (severe_flags xs)

/-- Row `i` of the final table for a region whose `total_activity` series
is `xs`, assembling every derived column of steps 3–4. -/
def record_at (xs : List ℚ) (i : ℕ) : SilenceRecord :=
  let r := ratio_at xs i
  let mrun := (moderate_runs xs).getD i 0
  let srun := (severe_runs xs).getD i 0
  let st := silence_state_of mrun srun
  { total_activity := xs.getD i 0
    baseline := baseline_total_ma6 xs i
    suppression_ratio := r
    flag_moderate := flag_moderate_of r
    flag_severe := flag_severe_of r
    moderate_run := mrun
    severe_run := srun
    silence_state := st
    suppression_depth_pct := depth_pct_of r
    silence_duration_months := duration_of st mrun srun
    SZI := SZI_of r
    alert_flag := alert_of mrun srun st
    recommendation := recommend st (depth_pct_of r) }

/-- The final-table rows of one region, in month order. -/
def region_records (xs : List ℚ) : List SilenceRecord :=
  (List.range xs.length).map (record_at xs)

/-- The `total_activity` series of the region-month sequence in the
spec's worked example (§8): seven consecutive months. -/
def ex1 : List ℚ := [100, 100, 100, 100, 30, 25, 20]

/-- The merge key of step 3 (lines 126–127): the five columns
`region_id, state, district, pin_code, yyyymm` the outer joins are on. -/
structure MKey where
  region_id : String
  state : String
  district : String
  pin_code : String
  yyyymm : String
deriving DecidableEq

/-- A monthly source aggregate (the output of one of the three
`groupby(...).agg(...)` calls of step 3, lines 113–123): one activity
value per key. -/
def Aggregate : Type := List (MKey × ℚ)

/-- The key column of an aggregate. -/
def akeys (t : List (MKey × ℚ)) : List MKey := t.map Prod.fst

/-- Activity of key `k` in aggregate `t` after `fillna(0)`
(step 3, lines 130–131): the stored value when the key is present,
0 when it is absent. -/
def lookup0 (t : List (MKey × ℚ)) (k : MKey) : ℚ :=
  match t.find? (fun p => decide (p.1 = k)) with
  | some p => p.2
  | none => 0

/-- The key sequence of one pandas outer merge: all left keys in order,
then the right keys that did not match any left key. -/
def outer_keys (l r : List MKey) : List MKey :=
  l ++ r.filter (fun k => decide (k ∉ l))

/-- The key sequence of the merged series of step 3 (lines 126–127):
enrolment outer-joined with demographic, then with biometric. -/
def merged_keys (e d b : List (MKey × ℚ)) : List MKey :=
  outer_keys (outer_keys (akeys e) (akeys d)) (akeys b)

/-- One row of the merged monthly series (step 3, lines 126–134). -/
structure MergedRow where
  key : MKey
  enrol_activity : ℚ
  demo_activity : ℚ
  bio_activity : ℚ
  total_activity : ℚ
deriving DecidableEq

/-- The merged row of key `k`: the three activities looked up with
zero-fill, and `total_activity` computed post-fill (step 3, line 134). -/
def merged_row (e d b : List (MKey × ℚ)) (k : MKey) : MergedRow :=
  { key := k
    enrol_activity := lookup0 e k
    demo_activity := lookup0 d k
    bio_activity := lookup0 b k
    total_activity := lookup0 e k + lookup0 d k + lookup0 b k }

/-- The merged monthly series (step 3, lines 125–134): one row per key of
the outer join of the three aggregates. -/
def merged_series (e d b : List (MKey × ℚ)) : List MergedRow :=
  (merged_keys e d b).map (merged_row e d b)

/-- One input row of `priority_engine` (`src/app.py`, lines 71–86): the
four columns the score reads. -/
structure PriorityInput where
  SZI : ℚ
  silence_duration_months : ℚ
  suppression_depth_pct : ℚ
  baseline_total_ma6 : ℚ
deriving DecidableEq

/-- The pandas `Series.max()` of a column given as a list. -/
def col_max : List ℚ → ℚ
  | [] => 0
  | x :: xs => xs.foldl max x

/-- The priority score of one record given the two normalization
denominators of the selected set (`src/app.py`, lines 74–84). -/
def priority_score (maxDur maxBase : ℚ) (r : PriorityInput) : ℚ :=
  let dur_norm := r.silence_duration_months / maxDur
  let depth_norm := r.suppression_depth_pct / 100
  let impact_norm := r.baseline_total_ma6 / maxBase
  let risk_norm := 1 - r.SZI
  35 / 100 * risk_norm + 25 / 100 * dur_norm + 25 / 100 * depth_norm
    + 15 / 100 * impact_norm

/-- The `Priority_Score` column `priority_engine` assigns to a selected
record set (`src/app.py`, lines 71–86; the subsequent `sort_values` only
reorders rows for display and does not change any score). -/
def priority_engine (s : List PriorityInput) : List ℚ :=
  s.map (priority_score (col_max (s.map (fun r => r.silence_duration_months)))
      (col_max (s.map (fun r => r.baseline_total_ma6))))

/-- The priority formula exactly as the spec words it (§4.6): risk, then
duration, then depth, then impact, with weights 0.35 / 0.25 / 0.25 / 0.15
and denominators taken over the selected set. -/
def priority_formula_spec (s : List PriorityInput) (r : PriorityInput) : ℚ :=
  35 / 100 * (1 - r.SZI)
    + 25 / 100 * (r.silence_duration_months
        / col_max (s.map (fun x => x.silence_duration_months)))
    + 25 / 100 * (r.suppression_depth_pct / 100)
    + 15 / 100 * (r.baseline_total_ma6
        / col_max (s.map (fun x => x.baseline_total_ma6)))

/-! ### Basic lemmas about the embedded pipeline -/

lemma window6_length (xs : List ℚ) (i : ℕ) (h : i < xs.length) :
    (window6 xs i).length = min (i + 1) 6 := by
  simp only [window6, List.length_drop, List.length_take]
  omega

lemma window6_length_le (xs : List ℚ) (i : ℕ) :
    (window6 xs i).length ≤ i + 1 := by
  simp only [window6, List.length_drop, List.length_take]
  omega

lemma baseline_none_of_lt_two (xs : List ℚ) (i : ℕ) (h : i < 2) :
    baseline_total_ma6 xs i = none := by
  have hle := window6_length_le xs i
  unfold baseline_total_ma6
  rw [if_neg]
  omega

lemma baseline_some_of_two_le (xs : List ℚ) (i : ℕ) (h2 : 2 ≤ i)
    (h : i < xs.length) :
    baseline_total_ma6 xs i =
      some ((window6 xs i).sum / ((window6 xs i).length : ℚ)) := by
  unfold baseline_total_ma6
  rw [if_pos]
  rw [window6_length xs i h]
  omega

lemma suppression_ratio_none (total : ℚ) : suppression_ratio total none = 0 := rfl

lemma ratio_at_of_baseline_none (xs : List ℚ) (i : ℕ)
    (h : baseline_total_ma6 xs i = none) : ratio_at xs i = 0 := by
  rw [ratio_at, h, suppression_ratio_none]

lemma runs_from_cons (c : ℕ) (v : Bool) (vs : List Bool) :
    runs_from c (v :: vs) =
      (if v then c + 1 else 0) :: runs_from (if v then c + 1 else 0) vs := rfl

lemma runs_from_length (c : ℕ) (fl : List Bool) :
    (runs_from c fl).length = fl.length := by
  induction fl generalizing c with
  | nil => rfl
  | cons v vs ih => rw [runs_from_cons, List.length_cons, ih, List.length_cons]

lemma runs_from_getD (fl : List Bool) (c i : ℕ) (h : i < fl.length) :
    (runs_from c fl).getD i 0 =
      if fl.getD i false then
        (if i = 0 then c else (runs_from c fl).getD (i - 1) 0) + 1
      else 0 := by
  induction fl generalizing c i with
  | nil => simp at h
  | cons v vs ih =>
    cases i with
    | zero =>
      rw [runs_from_cons]
      cases v <;> simp
    | succ j =>
      have hj : j < vs.length := by simpa using h
      have key := ih (if v then c + 1 else 0) j hj
      rw [runs_from_cons, List.getD_cons_succ, key]
      cases j with
      | zero => simp
      | succ m =>
        simp only [Nat.succ_sub_one, List.getD_cons_succ]
        rfl

lemma ratio_list_length (xs : List ℚ) : (ratio_list xs).length = xs.length := by
  simp [ratio_list]

lemma moderate_flags_length (xs : List ℚ) :
    (moderate_flags xs).length = xs.length := by
  simp [moderate_flags, ratio_list_length]

lemma severe_flags_length (xs : List ℚ) :
    (severe_flags xs).length = xs.length := by
  simp [severe_flags, ratio_list_length]

lemma moderate_flags_getD (xs : List ℚ) (i : ℕ) (h : i < xs.length) :
    (moderate_flags xs).getD i false = flag_moderate_of (ratio_at xs i) := by
  have h1 : i < (moderate_flags xs).length := by rw [moderate_flags_length]; exact h
  rw [List.getD_eq_getElem _ _ h1]
  simp [moderate_flags, ratio_list]

lemma severe_flags_getD (xs : List ℚ) (i : ℕ) (h : i < xs.length) :
    (severe_flags xs).getD i false = flag_severe_of (ratio_at xs i) := by
  have h1 : i < (severe_flags xs).length := by rw [severe_flags_length]; exact h
  rw [List.getD_eq_getElem _ _ h1]
  simp [severe_flags, ratio_list]

lemma record_at_flag_moderate (xs : List ℚ) (i : ℕ) :
    (record_at xs i).flag_moderate = flag_moderate_of (ratio_at xs i) := rfl

lemma record_at_flag_severe (xs : List ℚ) (i : ℕ) :
    (record_at xs i).flag_severe = flag_severe_of (ratio_at xs i) := rfl

lemma record_at_moderate_run (xs : List ℚ) (i : ℕ) :
    (record_at xs i).moderate_run = (moderate_runs xs).getD i 0 := rfl

lemma record_at_severe_run (xs : List ℚ) (i : ℕ) :
    (record_at xs i).severe_run = (severe_runs xs).getD i 0 := rfl

lemma record_at_silence_state (xs : List ℚ) (i : ℕ) :
    (record_at xs i).silence_state =
      silence_state_of ((moderate_runs xs).getD i 0)
        ((severe_runs xs).getD i 0) := rfl

lemma record_at_alert_flag (xs : List ℚ) (i : ℕ) :
    (record_at xs i).alert_flag =
      alert_of ((moderate_runs xs).getD i 0) ((severe_runs xs).getD i 0)
        (silence_state_of ((moderate_runs xs).getD i 0)
          ((severe_runs xs).getD i 0)) := rfl

lemma record_at_duration (xs : List ℚ) (i : ℕ) :
    (record_at xs i).silence_duration_months =
      duration_of
        (silence_state_of ((moderate_runs xs).getD i 0)
          ((severe_runs xs).getD i 0))
        ((moderate_runs xs).getD i 0) ((severe_runs xs).getD i 0) := rfl

lemma mem_region_records {xs : List ℚ} {rec : SilenceRecord} :
    rec ∈ region_records xs ↔ ∃ i, i < xs.length ∧ rec = record_at xs i := by
  simp only [region_records, List.mem_map, List.mem_range]
  constructor
  · rintro ⟨i, hi, hrec⟩
    exact ⟨i, hi, hrec.symm⟩
  · rintro ⟨i, hi, hrec⟩
    exact ⟨i, hi, hrec.symm⟩

lemma silence_state_of_spec (m s : ℕ) :
    (silence_state_of m s = SilenceState.Severe ↔ 3 ≤ s) ∧
    (silence_state_of m s = SilenceState.Moderate ↔ (¬ 3 ≤ s ∧ 2 ≤ m)) ∧
    (silence_state_of m s = SilenceState.Normal ↔ (¬ 3 ≤ s ∧ ¬ 2 ≤ m)) := by
  unfold silence_state_of
  split_ifs with h1 h2 <;> simp_all

lemma alert_of_spec (m s : ℕ) (st : SilenceState) :
    (alert_of m s st = 1 ↔ (st = SilenceState.Severe ∨ m = 2 ∨ s = 3)) ∧
    (alert_of m s st = 0 ↔ ¬ (st = SilenceState.Severe ∨ m = 2 ∨ s = 3)) := by
  unfold alert_of
  split_ifs with h
  · simp_all
    tauto
  · simp_all

lemma runs_from_le {sf mf : List Bool}
    (hf : List.Forall₂ (fun a b => a = true → b = true) sf mf) :
    ∀ {cs cm : ℕ}, cs ≤ cm →
      List.Forall₂ (· ≤ ·) (runs_from cs sf) (runs_from cm mf) := by
  induction hf with
  | nil => intro cs cm _; exact List.Forall₂.nil
  | @cons a b l1 l2 hab htail ih =>
    intro cs cm h
    rw [runs_from_cons, runs_from_cons]
    have hc : (if a then cs + 1 else 0) ≤ (if b then cm + 1 else 0) := by
      cases a with
      | false => simp
      | true =>
        rw [hab rfl]
        simp
        omega
    exact List.Forall₂.cons hc (ih hc)

lemma forall₂_le_getD {l1 l2 : List ℕ}
    (h : List.Forall₂ (fun a b => a ≤ b) l1 l2) (i : ℕ) :
    l1.getD i 0 ≤ l2.getD i 0 := by
  induction h generalizing i with
  | nil => simp
  | cons hab htail ih =>
    cases i with
    | zero => simpa using hab
    | succ j => simpa using ih j

lemma flags_imp (xs : List ℚ) :
    List.Forall₂ (fun a b => a = true → b = true)
      (severe_flags xs) (moderate_flags xs) := by
  unfold severe_flags moderate_flags
  induction ratio_list xs with
  | nil => exact List.Forall₂.nil
  | cons r rs ih =>
    refine List.Forall₂.cons ?_ ih
    intro hsev
    have hr : r < 40 / 100 := by simpa [flag_severe_of] using hsev
    simp only [flag_moderate_of, decide_eq_true_eq]
    linarith

/-! ### Claim theorems -/

/-- C3: for every record of the final table, `silence_state = Severe` if and
only if `severe_run >= 3`; otherwise `silence_state = Moderate` if and only
if `moderate_run >= 2`; otherwise `silence_state = Normal` (Severe takes
precedence over Moderate). -/
theorem claim_C3 (xs : List ℚ) (rec : SilenceRecord)
    (h : rec ∈ region_records xs) :
    (rec.silence_state = SilenceState.Severe ↔ 3 ≤ rec.severe_run) ∧
    (rec.silence_state = SilenceState.Moderate ↔
      (¬ 3 ≤ rec.severe_run ∧ 2 ≤ rec.moderate_run)) ∧
    (rec.silence_state = SilenceState.Normal ↔
      (¬ 3 ≤ rec.severe_run ∧ ¬ 2 ≤ rec.moderate_run)) := by
  obtain ⟨i, hi, rfl⟩ := mem_region_records.mp h
  rw [record_at_silence_state, record_at_moderate_run, record_at_severe_run]
  exact silence_state_of_spec _ _

/-- Witness for C3: the single record of the one-month region series `[2]`. -/
theorem claim_C3_witness :
    ((record_at [2] 0).silence_state = SilenceState.Severe ↔
      3 ≤ (record_at [2] 0).severe_run) ∧
    ((record_at [2] 0).silence_state = SilenceState.Moderate ↔
      (¬ 3 ≤ (record_at [2] 0).severe_run ∧ 2 ≤ (record_at [2] 0).moderate_run)) ∧
    ((record_at [2] 0).silence_state = SilenceState.Normal ↔
      (¬ 3 ≤ (record_at [2] 0).severe_run ∧
        ¬ 2 ≤ (record_at [2] 0).moderate_run)) :=
  claim_C3 [2] (record_at [2] 0) (mem_region_records.mpr ⟨0, by decide, rfl⟩)

/-- C4: for every record of the final table, `alert_flag = 1` exactly when
`silence_state = Severe`, or `moderate_run = 2`, or `severe_run = 3`;
`alert_flag = 0` on every other record. -/
theorem claim_C4 (xs : List ℚ) (rec : SilenceRecord)
    (h : rec ∈ region_records xs) :
    (rec.alert_flag = 1 ↔
      (rec.silence_state = SilenceState.Severe ∨ rec.moderate_run = 2 ∨
        rec.severe_run = 3)) ∧
    (rec.alert_flag = 0 ↔
      ¬ (rec.silence_state = SilenceState.Severe ∨ rec.moderate_run = 2 ∨
        rec.severe_run = 3)) := by
  obtain ⟨i, hi, rfl⟩ := mem_region_records.mp h
  rw [record_at_alert_flag, record_at_moderate_run, record_at_severe_run,
    record_at_silence_state]
  exact alert_of_spec _ _ _

/-- Witness for C4: the single record of the one-month region series `[9]`. -/
theorem claim_C4_witness :
    ((record_at [9] 0).alert_flag = 1 ↔
      ((record_at [9] 0).silence_state = SilenceState.Severe ∨
        (record_at [9] 0).moderate_run = 2 ∨ (record_at [9] 0).severe_run = 3)) ∧
    ((record_at [9] 0).alert_flag = 0 ↔
      ¬ ((record_at [9] 0).silence_state = SilenceState.Severe ∨
        (record_at [9] 0).moderate_run = 2 ∨
        (record_at [9] 0).severe_run = 3)) :=
  claim_C4 [9] (record_at [9] 0) (mem_region_records.mpr ⟨0, by decide, rfl⟩)

/-- C10: for every record of the final table, `moderate_run >= severe_run`:
a suppression ratio below 0.40 is also below 0.60, so the severe streak
ending at a month is never longer than the moderate streak ending there. -/
theorem claim_C10 (xs : List ℚ) (rec : SilenceRecord)
    (h : rec ∈ region_records xs) :
    rec.severe_run ≤ rec.moderate_run := by
  obtain ⟨i, hi, rfl⟩ := mem_region_records.mp h
  rw [record_at_severe_run, record_at_moderate_run]
  have h2 := runs_from_le (flags_imp xs) (Nat.le_refl 0)
  simpa [severe_runs, moderate_runs, compute_consecutive_runs] using
    forall₂_le_getD h2 i

/-- Witness for C10: the second record of the region series `[4, 4]`. -/
theorem claim_C10_witness :
    (record_at [4, 4] 1).severe_run ≤ (record_at [4, 4] 1).moderate_run :=
  claim_C10 [4, 4] (record_at [4, 4] 1)
    (mem_region_records.mpr ⟨1, by decide, rfl⟩)

/-- C5: within a region processed in month order, each run counter equals
the previous month's counter plus one on a month where its condition holds
(with 0 before the region's first month), and exactly 0 where it does not. -/
theorem claim_C5 (xs : List ℚ) (i : ℕ) (h : i < xs.length) :
    ((record_at xs i).moderate_run =
      if (record_at xs i).flag_moderate then
        (if i = 0 then 0 else (record_at xs (i - 1)).moderate_run) + 1
      else 0) ∧
    ((record_at xs i).severe_run =
      if (record_at xs i).flag_severe then
        (if i = 0 then 0 else (record_at xs (i - 1)).severe_run) + 1
      else 0) := by
  constructor
  · rw [record_at_moderate_run, record_at_flag_moderate]
    have hlen : i < (moderate_flags xs).length := by
      rw [moderate_flags_length]; exact h
    have key := runs_from_getD (moderate_flags xs) 0 i hlen
    rw [moderate_flags_getD xs i h] at key
    by_cases hz : i = 0
    · subst hz
      simpa [moderate_runs, compute_consecutive_runs] using key
    · rw [record_at_moderate_run]
      simpa [moderate_runs, compute_consecutive_runs, hz] using key
  · rw [record_at_severe_run, record_at_flag_severe]
    have hlen : i < (severe_flags xs).length := by
      rw [severe_flags_length]; exact h
    have key := runs_from_getD (severe_flags xs) 0 i hlen
    rw [severe_flags_getD xs i h] at key
    by_cases hz : i = 0
    · subst hz
      simpa [severe_runs, compute_consecutive_runs] using key
    · rw [record_at_severe_run]
      simpa [severe_runs, compute_consecutive_runs, hz] using key

/-- Witness for C5: month 2 of the three-month region series `[8, 8, 8]`. -/
theorem claim_C5_witness :
    ((record_at [8, 8, 8] 2).moderate_run =
      if (record_at [8, 8, 8] 2).flag_moderate then
        (if (2 : ℕ) = 0 then 0 else (record_at [8, 8, 8] (2 - 1)).moderate_run) + 1
      else 0) ∧
    ((record_at [8, 8, 8] 2).severe_run =
      if (record_at [8, 8, 8] 2).flag_severe then
        (if (2 : ℕ) = 0 then 0 else (record_at [8, 8, 8] (2 - 1)).severe_run) + 1
      else 0) :=
  claim_C5 [8, 8, 8] 2 (by decide)

/-- C6: the suppression ratio equals `total_activity / baseline_total_ma6`,
except that an undefined (NaN) or infinite (zero-baseline) result is
replaced by 0, so the normalized column carries a plain rational in every
case. -/
theorem claim_C6 (total b : ℚ) :
    (b ≠ 0 → suppression_ratio total (some b) = total / b) ∧
    suppression_ratio total (some 0) = 0 ∧
    suppression_ratio total none = 0 ∧
    ((ratio_raw total (some b) = PVal.nan ∨
      ratio_raw total (some b) = PVal.posInf ∨
      ratio_raw total (some b) = PVal.negInf) →
      suppression_ratio total (some b) = 0) := by
  refine ⟨?_, ?_, rfl, ?_⟩
  · intro hb
    simp [suppression_ratio, ratio_raw, hb, replace_inf_nan]
  · unfold suppression_ratio ratio_raw
    simp only [if_pos rfl]
    split_ifs <;> rfl
  · intro hcase
    unfold suppression_ratio
    rcases hcase with hc | hc | hc <;> rw [hc] <;> rfl

/-- Witness for C6: a defined baseline of 2 and activity 5 give ratio 5/2;
a missing or zero baseline gives ratio 0. -/
theorem claim_C6_witness :
    suppression_ratio 5 (some 2) = 5 / 2 ∧
    suppression_ratio 5 (some 0) = 0 ∧
    suppression_ratio 5 none = 0 :=
  ⟨(claim_C6 5 2).1 (by decide), (claim_C6 5 2).2.1, (claim_C6 5 2).2.2.1⟩

/-- C7: for every region, the baseline is absent on the region's first two
months and defined from the third onward, regardless of the activity
values; where defined it is the mean of the trailing window of up to six
`total_activity` values ending at that month. -/
theorem claim_C7 (xs : List ℚ) (i : ℕ) (h : i < xs.length) :
    (i < 2 → baseline_total_ma6 xs i = none) ∧
    (2 ≤ i →
      baseline_total_ma6 xs i =
        some ((window6 xs i).sum / ((window6 xs i).length : ℚ)) ∧
      (window6 xs i).length = min (i + 1) 6 ∧
      ∀ j, j < (window6 xs i).length →
        (window6 xs i).getD j 0 = xs.getD (i + 1 - 6 + j) 0) := by
  refine ⟨fun h2 => baseline_none_of_lt_two xs i h2, fun h2 => ?_⟩
  refine ⟨baseline_some_of_two_le xs i h2 h, window6_length xs i h, ?_⟩
  intro j hj
  have hlen : (window6 xs i).length = min (i + 1) 6 := window6_length xs i h
  have hjt : i + 1 - 6 + j < (xs.take (i + 1)).length := by
    simp only [List.length_take]
    omega
  have hjx : i + 1 - 6 + j < xs.length := by
    have := List.length_take (i + 1) xs
    omega
  rw [List.getD_eq_getElem _ _ hj, List.getD_eq_getElem _ _ hjx]
  simp only [window6]
  rw [List.getElem_drop, List.getElem_take]

/-- Witness for C7: month 6 (the seventh month) of an eight-month series,
whose window is the trailing six values. -/
theorem claim_C7_witness :
    ((6 : ℕ) < 2 → baseline_total_ma6 [1, 2, 3, 4, 5, 6, 7, 8] 6 = none) ∧
    (2 ≤ (6 : ℕ) →
      baseline_total_ma6 [1, 2, 3, 4, 5, 6, 7, 8] 6 =
        some ((window6 [1, 2, 3, 4, 5, 6, 7, 8] 6).sum /
          ((window6 [1, 2, 3, 4, 5, 6, 7, 8] 6).length : ℚ)) ∧
      (window6 [1, 2, 3, 4, 5, 6, 7, 8] 6).length = min (6 + 1) 6 ∧
      ∀ j, j < (window6 [1, 2, 3, 4, 5, 6, 7, 8] 6).length →
        (window6 [1, 2, 3, 4, 5, 6, 7, 8] 6).getD j 0 =
          ([1, 2, 3, 4, 5, 6, 7, 8] : List ℚ).getD (6 + 1 - 6 + j) 0) :=
  claim_C7 [1, 2, 3, 4, 5, 6, 7, 8] 6 (by decide)

/-- C2: for every region with at least two months, the undefined baseline
makes the first two suppression ratios 0, so both flags hold on those
months, and the second month always has `moderate_run = 2`,
`silence_state = Moderate` and `alert_flag = 1`. -/
theorem claim_C2 (xs : List ℚ) (h : 2 ≤ xs.length) :
    ratio_at xs 0 = 0 ∧ ratio_at xs 1 = 0 ∧
    (record_at xs 0).flag_moderate = true ∧
    (record_at xs 0).flag_severe = true ∧
    (record_at xs 1).flag_moderate = true ∧
    (record_at xs 1).flag_severe = true ∧
    (record_at xs 1).moderate_run = 2 ∧
    (record_at xs 1).silence_state = SilenceState.Moderate ∧
    (record_at xs 1).alert_flag = 1 := by
  have h0 : ratio_at xs 0 = 0 :=
    ratio_at_of_baseline_none xs 0 (baseline_none_of_lt_two xs 0 (by omega))
  have h1 : ratio_at xs 1 = 0 :=
    ratio_at_of_baseline_none xs 1 (baseline_none_of_lt_two xs 1 (by omega))
  have hfm0 : flag_moderate_of (ratio_at xs 0) = true := by
    rw [h0]
    norm_num [flag_moderate_of]
  have hfm1 : flag_moderate_of (ratio_at xs 1) = true := by
    rw [h1]
    norm_num [flag_moderate_of]
  have hfs0 : flag_severe_of (ratio_at xs 0) = true := by
    rw [h0]
    norm_num [flag_severe_of]
  have hfs1 : flag_severe_of (ratio_at xs 1) = true := by
    rw [h1]
    norm_num [flag_severe_of]
  have hl0 : 0 < xs.length := by omega
  have hl1 : 1 < xs.length := by omega
  have hml0 : 0 < (moderate_flags xs).length := by rw [moderate_flags_length]; omega
  have hml1 : 1 < (moderate_flags xs).length := by rw [moderate_flags_length]; omega
  have hsl0 : 0 < (severe_flags xs).length := by rw [severe_flags_length]; omega
  have hsl1 : 1 < (severe_flags xs).length := by rw [severe_flags_length]; omega
  have hm0 : (runs_from 0 (moderate_flags xs)).getD 0 0 = 1 := by
    rw [runs_from_getD _ 0 0 hml0, moderate_flags_getD xs 0 hl0, hfm0]
    simp
  have hm1 : (runs_from 0 (moderate_flags xs)).getD 1 0 = 2 := by
    rw [runs_from_getD _ 0 1 hml1, moderate_flags_getD xs 1 hl1, hfm1]
    rw [if_pos rfl, if_neg (by omega), show (1 : ℕ) - 1 = 0 from rfl, hm0]
  have hs0 : (runs_from 0 (severe_flags xs)).getD 0 0 = 1 := by
    rw [runs_from_getD _ 0 0 hsl0, severe_flags_getD xs 0 hl0, hfs0]
    simp
  have hs1 : (runs_from 0 (severe_flags xs)).getD 1 0 = 2 := by
    rw [runs_from_getD _ 0 1 hsl1, severe_flags_getD xs 1 hl1, hfs1]
    rw [if_pos rfl, if_neg (by omega), show (1 : ℕ) - 1 = 0 from rfl, hs0]
  have hmr : (moderate_runs xs).getD 1 0 = 2 := by
    simpa [moderate_runs, compute_consecutive_runs] using hm1
  have hsr : (severe_runs xs).getD 1 0 = 2 := by
    simpa [severe_runs, compute_consecutive_runs] using hs1
  refine ⟨h0, h1, ?_, ?_, ?_, ?_, ?_, ?_, ?_⟩
  · rw [record_at_flag_moderate]; exact hfm0
  · rw [record_at_flag_severe]; exact hfs0
  · rw [record_at_flag_moderate]; exact hfm1
  · rw [record_at_flag_severe]; exact hfs1
  · rw [record_at_moderate_run]; exact hmr
  · rw [record_at_silence_state, hmr, hsr]; decide
  · rw [record_at_alert_flag, hmr, hsr]; decide

/-- Witness for C2: the two-month region series `[7, 7]`. -/
theorem claim_C2_witness :
    ratio_at [7, 7] 0 = 0 ∧ ratio_at [7, 7] 1 = 0 ∧
    (record_at [7, 7] 0).flag_moderate = true ∧
    (record_at [7, 7] 0).flag_severe = true ∧
    (record_at [7, 7] 1).flag_moderate = true ∧
    (record_at [7, 7] 1).flag_severe = true ∧
    (record_at [7, 7] 1).moderate_run = 2 ∧
    (record_at [7, 7] 1).silence_state = SilenceState.Moderate ∧
    (record_at [7, 7] 1).alert_flag = 1 :=
  claim_C2 [7, 7] (by decide)

/-- C1 counterexample: on the activity series `[100,100,100,100,30,25,20]`
the claimed columns `flag_severe = [F,F,F,F,T,T,T]` and
`severe_run = [0,0,0,0,1,2,3]` are both wrong, because the first two
months have an undefined baseline, hence ratio 0, hence a true severe
flag. -/
theorem claim_C1_counterexample :
    severe_flags ex1 ≠ [false, false, false, false, true, true, true] ∧
    severe_runs ex1 ≠ [0, 0, 0, 0, 1, 2, 3] := by
  constructor <;>
    norm_num [severe_flags, severe_runs, ratio_list, ratio_at, ex1,
      List.range_succ, suppression_ratio, baseline_total_ma6, window6,
      ratio_raw, replace_inf_nan, flag_severe_of, compute_consecutive_runs,
      runs_from]

/-- C1 amended: on the activity series `[100,100,100,100,30,25,20]` the
pipeline produces `flag_severe = [T,T,F,F,T,T,T]` and
`severe_run = [1,2,0,0,1,2,3]` (the first two months are flagged because
the undefined baseline normalizes the ratio to 0), and the final month has
`silence_state = Severe`, `alert_flag = 1` and
`silence_duration_months = 3` as claimed. -/
theorem claim_C1_amended :
    severe_flags ex1 = [true, true, false, false, true, true, true] ∧
    severe_runs ex1 = [1, 2, 0, 0, 1, 2, 3] ∧
    (record_at ex1 6).silence_state = SilenceState.Severe ∧
    (record_at ex1 6).alert_flag = 1 ∧
    (record_at ex1 6).silence_duration_months = 3 := by
  refine ⟨?_, ?_, ?_, ?_, ?_⟩ <;>
    norm_num [severe_flags, severe_runs, moderate_flags, moderate_runs,
      ratio_list, ratio_at, ex1, List.range_succ, suppression_ratio,
      baseline_total_ma6, window6, ratio_raw, replace_inf_nan,
      flag_severe_of, flag_moderate_of, compute_consecutive_runs, runs_from,
      record_at, silence_state_of, alert_of, duration_of]

lemma mem_outer_keys {l r : List MKey} {k : MKey} :
    k ∈ outer_keys l r ↔ k ∈ l ∨ k ∈ r := by
  unfold outer_keys
  simp only [List.mem_append, List.mem_filter, decide_eq_true_eq]
  constructor
  · rintro (h | ⟨h, _⟩)
    · exact Or.inl h
    · exact Or.inr h
  · rintro (h | h)
    · exact Or.inl h
    · by_cases hl : k ∈ l
      · exact Or.inl hl
      · exact Or.inr ⟨h, hl⟩

lemma nodup_outer_keys {l r : List MKey} (hl : l.Nodup) (hr : r.Nodup) :
    (outer_keys l r).Nodup := by
  unfold outer_keys
  refine List.Nodup.append hl (List.Nodup.filter _ hr) ?_
  intro k hk hkf
  rw [List.mem_filter] at hkf
  have h2 := hkf.2
  simp only [decide_eq_true_eq] at h2
  exact h2 hk

lemma lookup0_eq_zero {t : List (MKey × ℚ)} {k : MKey} (h : k ∉ akeys t) :
    lookup0 t k = 0 := by
  unfold lookup0
  cases hf : t.find? (fun p => decide (p.1 = k)) with
  | none => rfl
  | some p =>
    exfalso
    have hp := List.find?_some hf
    have hmem := List.mem_of_find?_eq_some hf
    simp only [decide_eq_true_eq] at hp
    exact h (by simpa [akeys, hp] using List.mem_map_of_mem Prod.fst hmem)

lemma merged_series_keys (e d b : List (MKey × ℚ)) :
    (merged_series e d b).map MergedRow.key = merged_keys e d b := by
  unfold merged_series
  rw [List.map_map]
  have : MergedRow.key ∘ merged_row e d b = fun k => k := by
    funext k
    rfl
  rw [this, List.map_id']

/-- C8: given the three monthly source aggregates, each with unique keys
as a groupby produces, every (region, month) key present in at least one
aggregate appears exactly once in the merged series; each row's activity
value absent from its source is 0, and `total_activity` is the sum of the
three activities computed after this zero-fill. -/
theorem claim_C8 (e d b : List (MKey × ℚ))
    (he : (akeys e).Nodup) (hd : (akeys d).Nodup) (hb : (akeys b).Nodup) :
    (∀ k : MKey, (k ∈ akeys e ∨ k ∈ akeys d ∨ k ∈ akeys b) →
      ((merged_series e d b).map MergedRow.key).count k = 1) ∧
    (∀ row ∈ merged_series e d b,
      row.total_activity =
        row.enrol_activity + row.demo_activity + row.bio_activity ∧
      (row.key ∉ akeys e → row.enrol_activity = 0) ∧
      (row.key ∉ akeys d → row.demo_activity = 0) ∧
      (row.key ∉ akeys b → row.bio_activity = 0)) := by
  constructor
  · intro k hk
    rw [merged_series_keys]
    have hnd : (merged_keys e d b).Nodup :=
      nodup_outer_keys (nodup_outer_keys he hd) hb
    have hmem : k ∈ merged_keys e d b := by
      unfold merged_keys
      rw [mem_outer_keys, mem_outer_keys]
      tauto
    exact List.count_eq_one_of_mem hnd hmem
  · intro row hrow
    obtain ⟨k, _, rfl⟩ := List.mem_map.mp hrow
    refine ⟨rfl, ?_, ?_, ?_⟩
    · intro habs
      exact lookup0_eq_zero habs
    · intro habs
      exact lookup0_eq_zero habs
    · intro habs
      exact lookup0_eq_zero habs

/-- Witness for C8: one-row aggregates where only the enrolment source has
the key, so the demographic and biometric activities zero-fill. -/
theorem claim_C8_witness :
    ((∀ k : MKey,
        (k ∈ akeys [(MKey.mk "S | D | 1" "S" "D" "1" "2024-01", (5 : ℚ))] ∨
          k ∈ akeys ([] : List (MKey × ℚ)) ∨
          k ∈ akeys ([] : List (MKey × ℚ))) →
        ((merged_series [(MKey.mk "S | D | 1" "S" "D" "1" "2024-01", (5 : ℚ))]
              [] []).map MergedRow.key).count k = 1) ∧
      (∀ row ∈ merged_series
          [(MKey.mk "S | D | 1" "S" "D" "1" "2024-01", (5 : ℚ))] [] [],
        row.total_activity =
          row.enrol_activity + row.demo_activity + row.bio_activity ∧
        (row.key ∉ akeys [(MKey.mk "S | D | 1" "S" "D" "1" "2024-01", (5 : ℚ))] →
          row.enrol_activity = 0) ∧
        (row.key ∉ akeys ([] : List (MKey × ℚ)) → row.demo_activity = 0) ∧
        (row.key ∉ akeys ([] : List (MKey × ℚ)) → row.bio_activity = 0))) :=
  claim_C8 [(MKey.mk "S | D | 1" "S" "D" "1" "2024-01", (5 : ℚ))] [] []
    (by decide) (by decide) (by decide)

/-- C9: the score `priority_engine` assigns to every record of a selected
set is exactly the spec's weighted formula
`0.35*(1-SZI) + 0.25*(duration/max duration) + 0.25*(depth/100) +
0.15*(baseline/max baseline)`, with the maxima taken over the selected
set; the assignment is a pure function of the input set, so recomputing on
identical input yields identical scores. -/
theorem claim_C9 (s : List PriorityInput) :
    priority_engine s = s.map (priority_formula_spec s) := by
  unfold priority_engine priority_formula_spec priority_score
  rfl

end SZEWS
